import Mathlib

/-!
Verification of the WebSocket bridge in `WebSocketInterface.cpp` /
`WebSocketInterface.h` (DCC-EX CommandStation WebSocket interface).

The development shallowly embeds the three parts of the bridge:

* `WebSocketPrint` — the per-command output accumulator (a 256-byte
  buffer flushed on newline, near-capacity, and at end of command);
* `WebSocketInterface.normalize` / `WebSocketInterface.handleCommand` —
  the inbound-frame handling of `WebSocketInterface::handleCommand`
  (length check, NUL-termination, whitespace trim, bracket wrapping) and
  the outbound messages it produces;
* `WebSocketInterface.onWebSocketEvent` — the connect / disconnect / data
  event handler and the `clientCount` registry with ceiling
  `WS_MAX_CLIENTS`;
* `WebSocketInterface.setup` — the SPIFFS-mount / server-start sequence.

Bytes are modelled as `Nat`; the `uint8_t` counter uses an explicit
`% 256` where the C code increments it.  The external command parser
(`DCCEXParser::parse`, not part of this repository) is abstracted as a
function from the normalized command to the byte sequence it writes to
the output sink.  The ghost field `BridgeState.connected` records which
client ids were actually admitted and have not yet disconnected; it is
bookkeeping for stating properties and never influences the embedded
code's behaviour.
-/

/-- Configuration constant `WS_MAX_CLIENTS` (WebSocketInterface.h line 37). -/
def WS_MAX_CLIENTS : Nat := 5

/-- Configuration constant `WS_COMMAND_BUFFER_SIZE` (WebSocketInterface.h line 38). -/
def WS_COMMAND_BUFFER_SIZE : Nat := 128

/-- Size of the `WebSocketPrint` buffer, `char buffer[256]`
(WebSocketInterface.cpp line 60). -/
def wsPrintBufSize : Nat := 256

/-- The C string stored in a byte buffer: the bytes before the first NUL.
Both `client->text(buffer)` (which takes a `char*`) and the
`strlen`-based trimming in `handleCommand` see exactly this prefix of the
raw bytes. -/
def cstring (l : List Nat) : List Nat := l.takeWhile (fun c => c ≠ 0)

/-- State of a `WebSocketPrint` sink (WebSocketInterface.cpp lines 25-62).
`buf` holds the bytes stored at `buffer[0..pos)` since the last successful
flush, so `buf.length` is the write cursor `pos`.  `live` models
`client != nullptr && client->status() == WS_CONNECTED`, and `msgs` records
the outbound messages emitted so far (calls to `client->text`), in order. -/
structure WebSocketPrint where
  live : Bool
  buf : List Nat
  msgs : List (List Nat)
  deriving Repr, DecidableEq

namespace WebSocketPrint

/-- A fresh accumulator bound to a connection of the given liveness
(constructor at WebSocketInterface.cpp lines 27-29: `pos = 0`, zeroed buffer). -/
def fresh (live : Bool) : WebSocketPrint := ⟨live, [], []⟩

/-- `WebSocketPrint::flush` (WebSocketInterface.cpp lines 49-56): if the
cursor is positive and the client is live, send `buffer` as a C string and
reset the cursor; otherwise do nothing. -/
def flush (s : WebSocketPrint) : WebSocketPrint :=
  if 0 < s.buf.length ∧ s.live = true then
    { s with buf := [], msgs := s.msgs ++ [cstring s.buf] }
  else s

/-- `WebSocketPrint::write(uint8_t)` (WebSocketInterface.cpp lines 31-40):
store the byte if `pos < sizeof(buffer) - 1`, then flush on a newline or
when `pos >= sizeof(buffer) - 2`. -/
def write (s : WebSocketPrint) (c : Nat) : WebSocketPrint :=
  if s.buf.length < wsPrintBufSize - 1 then
    let s1 : WebSocketPrint := { s with buf := s.buf ++ [c] }
    if c = 10 ∨ wsPrintBufSize - 2 ≤ s1.buf.length then flush s1 else s1
  else s

/-- `WebSocketPrint::write(const uint8_t*, size_t)` (WebSocketInterface.cpp
lines 42-47): apply the single-byte `write` to each byte in order. -/
def writeBlock (s : WebSocketPrint) (l : List Nat) : WebSocketPrint :=
  l.foldl write s

end WebSocketPrint

namespace WebSocketInterface

/-- Whitespace characters trimmed by `WebSocketInterface::handleCommand`
(WebSocketInterface.cpp lines 181-185): space, `\n`, `\r`. -/
def isWS (c : Nat) : Bool := c == 32 || c == 10 || c == 13

/-- Leading-whitespace skip (WebSocketInterface.cpp line 181,
`while (*cmd == ' ' || *cmd == '\n' || *cmd == '\r') cmd++`). -/
def trimLeft (l : List Nat) : List Nat := l.dropWhile isWS

/-- Trailing-whitespace chop (WebSocketInterface.cpp lines 183-185, the
loop writing `'\0'` over trailing whitespace). -/
def trimRight (l : List Nat) : List Nat := (l.reverse.dropWhile isWS).reverse

/-- The whole trimming step of `handleCommand`: leading skip then trailing
chop, applied to the NUL-terminated command. -/
def trim (l : List Nat) : List Nat := trimRight (trimLeft l)

/-- The normalization portion of `WebSocketInterface::handleCommand`
(WebSocketInterface.cpp lines 171-204): `none` models the early `return`s
(empty or oversized frame, or all-whitespace command); otherwise the
command handed to `DCCEXParser::parse`, either the trimmed text unchanged
(when it starts with `<`) or wrapped as `<` text `>` (the `snprintf` at
line 202 cannot truncate, because the trimmed text has at most
`WS_COMMAND_BUFFER_SIZE` bytes and the target holds
`WS_COMMAND_BUFFER_SIZE + 3`). -/
def normalize (data : List Nat) : Option (List Nat) :=
  if data.length = 0 ∨ WS_COMMAND_BUFFER_SIZE < data.length then none
  else
    let cmd := trim (cstring data)
    if cmd.length = 0 then none
    else if cmd.head? = some 60 then some cmd
    else some (60 :: (cmd ++ [62]))

/-- `WebSocketInterface::handleCommand` end to end: the outbound messages
produced for one inbound frame.  `interp cmd` abstracts the byte sequence
the external `DCCEXParser::parse` writes to the `WebSocketPrint` sink when
given the normalized command `cmd`; `live` is the liveness of the
originating client while the sink flushes.  The final `wsPrint.flush()`
(line 207) is applied after the parser returns. -/
def handleCommand (interp : List Nat → List Nat) (live : Bool)
    (data : List Nat) : List (List Nat) :=
  match normalize data with
  | none => []
  | some cmd =>
      (WebSocketPrint.flush
        (WebSocketPrint.writeBlock (WebSocketPrint.fresh live) (interp cmd))).msgs

/-- The WebSocket events dispatched to `WebSocketInterface::onWebSocketEvent`
(WebSocketInterface.cpp lines 137-168), each carrying the client id and,
for data events, the frame payload. -/
inductive WSEvent where
  | connect (id : Nat)
  | disconnect (id : Nat)
  | data (id : Nat) (payload : List Nat)
  | pong (id : Nat)
  | error (id : Nat)
  deriving Repr, DecidableEq

/-- Transport-level side effects of one event: a text message sent to the
event's client (`client->text`), or a forced close (`client->close`). -/
inductive WSAction where
  | text (msg : List Nat)
  | close
  deriving Repr, DecidableEq

/-- Byte encoding of an ASCII string literal from the source. -/
def asciiBytes (s : String) : List Nat := s.data.map Char.toNat

/-- The rejection notice sent at the ceiling (WebSocketInterface.cpp
line 140). -/
def maxClientsMsg : List Nat := asciiBytes "\x7b\"error\":\"Max clients reached\"\x7d"

/-- The welcome payload sent on an accepted connect (WebSocketInterface.cpp
line 148). -/
def welcomeMsg (id : Nat) : List Nat :=
  asciiBytes ("\x7b\"connected\":true,\"clientId\":" ++ Nat.repr id ++ "\x7d")

/-- Bridge-side state relevant to the event handler: the `uint8_t`
`clientCount` static (WebSocketInterface.cpp line 22), plus the ghost list
`connected` of client ids that were actually admitted and have not yet
disconnected (bookkeeping only, never consulted by the embedded code). -/
structure BridgeState where
  clientCount : Nat
  connected : List Nat
  deriving Repr, DecidableEq

/-- The initial state: `clientCount = 0`, no admitted clients. -/
def initialState : BridgeState := ⟨0, []⟩

/-- `WebSocketInterface::onWebSocketEvent` (WebSocketInterface.cpp lines
131-168): the new bridge state and the side effects performed on the
event's client.  On connect, a count at or above `WS_MAX_CLIENTS` is
rejected with `maxClientsMsg` and a forced close; otherwise `clientCount`
is incremented (`uint8_t`, hence `% 256`) and the welcome payload sent.
On disconnect, the count is decremented whenever it is positive.  Data
events delegate to `handleCommand`; pong and error events only log. -/
def onWebSocketEvent (interp : List Nat → List Nat) (s : BridgeState)
    (e : WSEvent) : BridgeState × List WSAction :=
  match e with
  | .connect id =>
      if WS_MAX_CLIENTS ≤ s.clientCount then
        (s, [.text maxClientsMsg, .close])
      else
        ({ clientCount := (s.clientCount + 1) % 256,
           connected := s.connected ++ [id] },
         [.text (welcomeMsg id)])
  | .disconnect id =>
      ({ clientCount := if 0 < s.clientCount then s.clientCount - 1 else s.clientCount,
         connected := s.connected.erase id }, [])
  | .data _ payload => (s, (handleCommand interp true payload).map .text)
  | .pong _ => (s, [])
  | .error _ => (s, [])

/-- Folding a sequence of events through the event handler, keeping the
bridge state. -/
def runEvents (interp : List Nat → List Nat) (s : BridgeState)
    (evs : List WSEvent) : BridgeState :=
  evs.foldl (fun st e => (onWebSocketEvent interp st e).1) s

/-- Observable outcome of `WebSocketInterface::setup` (WebSocketInterface.cpp
lines 64-108): whether the bridge was enabled, whether the web server and
websocket objects were created and started, and whether the missing-index
diagnostic was logged.  A failed `SPIFFS.begin` returns early at line 68,
before anything is created. -/
structure ServerState where
  enabled : Bool
  webServerStarted : Bool
  wsCreated : Bool
  indexWarningLogged : Bool
  deriving Repr, DecidableEq

/-- `WebSocketInterface::setup` as a function of the two filesystem
outcomes: whether `SPIFFS.begin(true)` succeeds and whether
`/index.html` exists. -/
def setup (mountOk : Bool) (indexExists : Bool) : ServerState :=
  if mountOk = false then
    { enabled := false, webServerStarted := false, wsCreated := false,
      indexWarningLogged := false }
  else
    { enabled := true, webServerStarted := true, wsCreated := true,
      indexWarningLogged := !indexExists }

/-- Whether `WebSocketInterface::broadcast` actually sends (`textAll`) for
a given client count (WebSocketInterface.cpp lines 121-125:
`enabled && ws && clientCount > 0`). -/
def broadcastSends (s : ServerState) (clientCount : Nat) : Bool :=
  s.enabled && s.wsCreated && decide (0 < clientCount)

/-- Whether `WebSocketInterface::loop` gets past its guard
(WebSocketInterface.cpp line 111: `if (!enabled || !ws) return`). -/
def loopActive (s : ServerState) : Bool := s.enabled && s.wsCreated

end WebSocketInterface

namespace WebSocketPrint

theorem cstring_eq_self {l : List Nat} (h : 0 ∉ l) : cstring l = l := by
  induction l with
  | nil => rfl
  | cons a t ih =>
    have ha : a ≠ 0 := fun h0 => h (h0 ▸ List.mem_cons_self a t)
    have ht : 0 ∉ t := fun hm => h (List.mem_cons_of_mem a hm)
    simp [cstring, List.takeWhile, ha]
    simpa [cstring] using ih ht

theorem flush_of_dead {s : WebSocketPrint} (h : s.live = false) : flush s = s := by
  simp [flush, h]

theorem flush_of_empty {s : WebSocketPrint} (h : s.buf = []) : flush s = s := by
  simp [flush, h]

/-- A live flush with a NUL-free buffer moves the buffered bytes into the
message log and clears the cursor. -/
theorem flush_flatten {s : WebSocketPrint} (hl : s.live = true) (hb : 0 ∉ s.buf) :
    (flush s).msgs.flatten = s.msgs.flatten ++ s.buf ∧ (flush s).buf = [] ∨
      s.buf = [] ∧ flush s = s := by
  by_cases h : s.buf = []
  · exact Or.inr ⟨h, flush_of_empty h⟩
  · left
    have hp : 0 < s.buf.length := List.length_pos.mpr h
    simp [flush, hp, hl, cstring_eq_self hb]

/-- Single-byte write on a live, in-invariant state: the byte is stored, and
a flush (emitting the buffer) happens exactly on a newline or when the cursor
reaches `capacity - 2`. -/
theorem write_step {s : WebSocketPrint} {c : Nat} (hl : s.live = true)
    (hlen : s.buf.length ≤ 253) (hb : 0 ∉ s.buf) (hc : c ≠ 0) :
    (write s c).live = true ∧
    (if c = 10 ∨ 254 ≤ s.buf.length + 1 then
        (write s c).msgs = s.msgs ++ [s.buf ++ [c]] ∧ (write s c).buf = []
      else
        (write s c).msgs = s.msgs ∧ (write s c).buf = s.buf ++ [c]) := by
  have hguard : s.buf.length < 255 := by omega
  have hb1 : 0 ∉ s.buf ++ [c] := by
    intro hm
    rcases List.mem_append.mp hm with h1 | h2
    · exact hb h1
    · exact hc (List.eq_of_mem_singleton h2).symm
  have hpos : 0 < (s.buf ++ [c]).length := by simp
  by_cases h10 : c = 10
  · subst h10
    refine ⟨?_, ?_⟩
    · simp [write, flush, wsPrintBufSize, hguard, hl, hpos]
    · simp [write, flush, wsPrintBufSize, hguard, hl, hpos, cstring_eq_self hb1]
  · by_cases hcap : 254 ≤ s.buf.length + 1
    · refine ⟨?_, ?_⟩
      · simp [write, flush, wsPrintBufSize, hguard, hl, hpos, hcap]
      · simp [write, flush, wsPrintBufSize, hguard, hl, hpos, hcap, h10,
          cstring_eq_self hb1]
    · refine ⟨?_, ?_⟩
      · simp [write, wsPrintBufSize, hguard, h10, hcap, hl]
      · simp [write, wsPrintBufSize, hguard, h10, hcap, hl]

/-- Single-byte write preserves the liveness / cursor / NUL-freeness
invariant, and the emitted messages plus the buffer always account for
every byte written. -/
theorem write_inv {s : WebSocketPrint} {c : Nat} (hl : s.live = true)
    (hlen : s.buf.length ≤ 253) (hb : 0 ∉ s.buf) (hc : c ≠ 0) :
    (write s c).live = true ∧ (write s c).buf.length ≤ 253 ∧
    0 ∉ (write s c).buf ∧
    (write s c).msgs.flatten ++ (write s c).buf =
      s.msgs.flatten ++ s.buf ++ [c] := by
  have hstep := write_step hl hlen hb hc
  refine ⟨hstep.1, ?_⟩
  have hb1 : 0 ∉ s.buf ++ [c] := by
    intro hm
    rcases List.mem_append.mp hm with h1 | h2
    · exact hb h1
    · exact hc (List.eq_of_mem_singleton h2).symm
  by_cases hfl : c = 10 ∨ 254 ≤ s.buf.length + 1
  · rw [if_pos hfl] at hstep
    obtain ⟨_, hm, hbuf⟩ := hstep
    refine ⟨by simp [hbuf], by simp [hbuf], ?_⟩
    simp [hm, hbuf, List.append_assoc]
  · rw [if_neg hfl] at hstep
    obtain ⟨_, hm, hbuf⟩ := hstep
    have hlt : ¬ 254 ≤ s.buf.length + 1 := fun h => hfl (Or.inr h)
    refine ⟨?_, ?_, ?_⟩
    · rw [hbuf]; simp; omega
    · rw [hbuf]; exact hb1
    · simp [hm, hbuf, List.append_assoc]

/-- Block write preserves the invariant and accounts for every byte. -/
theorem writeBlock_inv (ws : List Nat) : ∀ s : WebSocketPrint,
    s.live = true → s.buf.length ≤ 253 → 0 ∉ s.buf → 0 ∉ ws →
    (writeBlock s ws).live = true ∧ (writeBlock s ws).buf.length ≤ 253 ∧
    0 ∉ (writeBlock s ws).buf ∧
    (writeBlock s ws).msgs.flatten ++ (writeBlock s ws).buf =
      s.msgs.flatten ++ s.buf ++ ws := by
  induction ws with
  | nil =>
    intro s hl hlen hb _
    exact ⟨hl, hlen, hb, by simp [writeBlock]⟩
  | cons c t ih =>
    intro s hl hlen hb hmem
    have hc : c ≠ 0 := fun h => hmem (h ▸ List.mem_cons_self c t)
    have ht : 0 ∉ t := fun h => hmem (List.mem_cons_of_mem c h)
    have hstep := write_inv hl hlen hb hc
    have hrec := ih (write s c) hstep.1 hstep.2.1 hstep.2.2.1 ht
    have hwb : writeBlock s (c :: t) = writeBlock (write s c) t := rfl
    rw [hwb]
    refine ⟨hrec.1, hrec.2.1, hrec.2.2.1, ?_⟩
    rw [hrec.2.2.2, hstep.2.2.2]
    simp [List.append_assoc]

/-- Block writes that contain no newline and fit below the flush threshold
only accumulate: no flush fires, the buffer extends by the written bytes. -/
theorem writeBlock_no_newline (ws : List Nat) : ∀ s : WebSocketPrint,
    10 ∉ ws → s.buf.length + ws.length ≤ 253 →
    writeBlock s ws = { s with buf := s.buf ++ ws } := by
  induction ws with
  | nil => intro s _ _; simp [writeBlock]
  | cons c t ih =>
    intro s hmem hlen
    have h10 : ¬ c = 10 := fun h => hmem (h ▸ List.mem_cons_self c t)
    have ht : 10 ∉ t := fun h => hmem (List.mem_cons_of_mem c h)
    have hlen' : s.buf.length + (c :: t).length ≤ 253 := hlen
    have hguard : s.buf.length < wsPrintBufSize - 1 := by
      simp only [wsPrintBufSize]; simp at hlen'; omega
    have hstep : write s c = { s with buf := s.buf ++ [c] } := by
      simp [write, hguard, h10]
      intro h
      exfalso
      simp only [wsPrintBufSize] at h
      simp at hlen'
      omega
    have hwb : writeBlock s (c :: t) = writeBlock (write s c) t := rfl
    rw [hwb, hstep, ih { s with buf := s.buf ++ [c] } ht (by simp at hlen' ⊢; omega)]
    simp

/-- Writes to a dead accumulator never emit a message. -/
theorem writeBlock_dead (ws : List Nat) : ∀ s : WebSocketPrint,
    s.live = false →
    (writeBlock s ws).msgs = s.msgs ∧ (writeBlock s ws).live = false := by
  induction ws with
  | nil => intro s h; exact ⟨rfl, h⟩
  | cons c t ih =>
    intro s h
    have hstep : (write s c).msgs = s.msgs ∧ (write s c).live = false := by
      by_cases hguard : s.buf.length < wsPrintBufSize - 1
      · by_cases hfl : c = 10 ∨ wsPrintBufSize - 2 ≤ (s.buf ++ [c]).length
        · simp [write, hguard, hfl, flush, h]
        · simp at hfl
          simp [write, hguard, flush, h, hfl]
      · simp [write, hguard, h]
    have hwb : writeBlock s (c :: t) = writeBlock (write s c) t := rfl
    rw [hwb]
    obtain ⟨hmsgs, hlive⟩ := hstep
    obtain ⟨hm, hl⟩ := ih (write s c) hlive
    exact ⟨hm.trans hmsgs, hl⟩

end WebSocketPrint

namespace WebSocketInterface

theorem dropWhile_head_not (p : Nat → Bool) (l : List Nat) {a : Nat}
    (h : (l.dropWhile p).head? = some a) : p a = false := by
  induction l with
  | nil => simp [List.dropWhile] at h
  | cons x t ih =>
    by_cases hx : p x = true
    · rw [List.dropWhile_cons_of_pos hx] at h
      exact ih h
    · rw [List.dropWhile_cons_of_neg hx] at h
      simp at h
      rw [← h]
      simpa using hx

/-- The trailing chop only removes elements, so `trimRight` is a prefix. -/
theorem trimRight_prefix (l : List Nat) : trimRight l <+: l := by
  have hs : l.reverse.dropWhile isWS <:+ l.reverse := List.dropWhile_suffix _
  have hp := List.reverse_prefix.mpr hs
  simpa [trimRight] using hp

/-- The first byte of a trimmed nonempty command is not whitespace. -/
theorem head?_trim_not_ws {l : List Nat} {a : Nat}
    (h : (trim l).head? = some a) : isWS a = false := by
  obtain ⟨t, ht⟩ := trimRight_prefix (trimLeft l)
  have hh : (trimLeft l).head? = some a := by
    rw [← ht]
    cases hcmd : trim l with
    | nil =>
      rw [hcmd] at h
      exact absurd h (by simp)
    | cons x xs =>
      rw [hcmd] at h
      simp at h
      have hx : trimRight (trimLeft l) = x :: xs := hcmd
      rw [hx, h]
      simp
  exact dropWhile_head_not isWS l hh

/-- The last byte of a trimmed nonempty command is not whitespace. -/
theorem getLast?_trim_not_ws {l : List Nat} {a : Nat}
    (h : (trim l).getLast? = some a) : isWS a = false := by
  have heq : (trim l).getLast? = ((trimLeft l).reverse.dropWhile isWS).head? := by
    rw [show trim l = ((trimLeft l).reverse.dropWhile isWS).reverse from rfl]
    exact List.getLast?_reverse _
  rw [heq] at h
  exact dropWhile_head_not isWS _ h

/-- One event preserves the registry ceiling. -/
theorem clientCount_le_step (interp : List Nat → List Nat) (s : BridgeState)
    (e : WSEvent) (h : s.clientCount ≤ WS_MAX_CLIENTS) :
    (onWebSocketEvent interp s e).1.clientCount ≤ WS_MAX_CLIENTS := by
  cases e with
  | connect id =>
    by_cases hc : WS_MAX_CLIENTS ≤ s.clientCount
    · simpa [onWebSocketEvent, hc] using h
    · have hmod : (s.clientCount + 1) % 256 = s.clientCount + 1 :=
        Nat.mod_eq_of_lt (by simp [WS_MAX_CLIENTS] at hc; omega)
      simp only [onWebSocketEvent, hc, if_false]
      simp only [WS_MAX_CLIENTS] at hc ⊢
      simp [hmod]
      omega
  | disconnect id =>
    simp only [onWebSocketEvent]
    split <;> omega
  | data id payload => simpa [onWebSocketEvent] using h
  | pong id => simpa [onWebSocketEvent] using h
  | error id => simpa [onWebSocketEvent] using h

/-- Any event sequence preserves the registry ceiling. -/
theorem clientCount_le_run (interp : List Nat → List Nat) (evs : List WSEvent) :
    ∀ s : BridgeState, s.clientCount ≤ WS_MAX_CLIENTS →
    (runEvents interp s evs).clientCount ≤ WS_MAX_CLIENTS := by
  induction evs with
  | nil => intro s h; simpa [runEvents] using h
  | cons e t ih =>
    intro s h
    have hr : runEvents interp s (e :: t) =
        runEvents interp (onWebSocketEvent interp s e).1 t := rfl
    rw [hr]
    exact ih _ (clientCount_le_step interp s e h)

end WebSocketInterface

open WebSocketPrint WebSocketInterface in
/-- C5 counterexample.  The claim fails at three concrete inputs that are
byte sequences with no newline and fewer bytes than the 256-byte capacity:
254 bytes of `a` already force a flush during the writes (the near-capacity
threshold is `capacity - 2`), a single NUL byte survives until `flush()`
but the transmitted C string is empty rather than the written byte, and
the empty sequence makes `flush()` produce zero messages instead of one. -/
theorem c5_counterexample :
    (writeBlock (fresh true) (List.replicate 254 97)).msgs ≠ [] ∧
    (flush (writeBlock (fresh true) [0])).msgs ≠ [[0]] ∧
    (flush (writeBlock (fresh true) [])).msgs = [] := by
  refine ⟨?_, by decide, by decide⟩
  set_option maxRecDepth 10000 in decide

open WebSocketPrint in
/-- C5 amended: for every nonempty NUL-free byte sequence containing no
newline and at most `capacity - 3 = 253` bytes (so that the
near-capacity threshold `capacity - 2` is never reached), writing it to a
fresh accumulator bound to a live connection produces zero outbound
messages until `flush()` is called, and that `flush()` then produces
exactly one outbound message equal to the written bytes. -/
theorem c5_amended (ws : List Nat) (h10 : 10 ∉ ws) (h0 : 0 ∉ ws)
    (hne : ws ≠ []) (hlen : ws.length ≤ 253) :
    (writeBlock (fresh true) ws).msgs = [] ∧
    (flush (writeBlock (fresh true) ws)).msgs = [ws] := by
  have heq : writeBlock (fresh true) ws = { fresh true with buf := ws } := by
    have h := writeBlock_no_newline ws (fresh true) h10 (by simp [fresh]; omega)
    simpa [fresh] using h
  constructor
  · rw [heq]
    rfl
  · rw [heq]
    have hp : 0 < ws.length := List.length_pos.mpr hne
    simp [flush, fresh, hp, cstring_eq_self h0]

open WebSocketPrint in
/-- C5 amended, witnessed at the concrete one-byte sequence `[97]`. -/
theorem c5_amended_witness :
    (writeBlock (fresh true) [97]).msgs = [] ∧
    (flush (writeBlock (fresh true) [97])).msgs = [[97]] :=
  c5_amended [97] (by decide) (by decide) (by decide) (by decide)

open WebSocketPrint in
/-- C6 counterexample.  For the byte sequence `[0]` (a single NUL byte)
written to a live fresh accumulator, the concatenation of all emitted
outbound messages including the final forced flush is empty, not `[0]`:
`client->text(buffer)` transmits the buffer as a C string, so the NUL
byte is lost. -/
theorem c6_counterexample :
    (flush (writeBlock (fresh true) [0])).msgs.flatten = [] ∧
    ([] : List Nat) ≠ [0] := by decide

open WebSocketPrint in
/-- C6 amended: for every NUL-free byte sequence written to an accumulator
bound to a live connection, a flush is emitted exactly at each newline and
whenever the cursor comes within two bytes of capacity, the cursor is
reset to zero on each such flush, and the concatenation of all emitted
outbound messages (including the final forced flush) equals the total
bytes written. -/
theorem c6_amended :
    (∀ ws : List Nat, 0 ∉ ws →
      (flush (writeBlock (fresh true) ws)).msgs.flatten = ws) ∧
    (∀ (s : WebSocketPrint) (c : Nat), s.live = true → s.buf.length ≤ 253 →
      0 ∉ s.buf → c ≠ 0 →
      (if c = 10 ∨ 254 ≤ s.buf.length + 1 then
          (write s c).msgs = s.msgs ++ [s.buf ++ [c]] ∧ (write s c).buf = []
        else
          (write s c).msgs = s.msgs ∧ (write s c).buf = s.buf ++ [c])) := by
  constructor
  · intro ws h0
    have h := writeBlock_inv ws (fresh true) rfl (by simp [fresh]) (by simp [fresh]) h0
    rcases flush_flatten h.1 h.2.2.1 with ⟨hfl, _⟩ | ⟨hbuf, hfl⟩
    · rw [hfl]
      have := h.2.2.2
      simpa [fresh] using this
    · rw [hfl]
      have := h.2.2.2
      rw [hbuf] at this
      simpa [fresh] using this
  · intro s c hl hlen hb hc
    exact (write_step hl hlen hb hc).2

open WebSocketPrint in
/-- C6 amended, witnessed at the sequence `[97, 10, 98]` (which contains an
internal newline and so splits into two messages whose concatenation is the
written bytes) and at a newline write on a fresh live accumulator. -/
theorem c6_amended_witness :
    (flush (writeBlock (fresh true) [97, 10, 98])).msgs.flatten = [97, 10, 98] ∧
    (if (10 : Nat) = 10 ∨ 254 ≤ (fresh true).buf.length + 1 then
        (write (fresh true) 10).msgs = (fresh true).msgs ++ [(fresh true).buf ++ [10]] ∧
          (write (fresh true) 10).buf = []
      else
        (write (fresh true) 10).msgs = (fresh true).msgs ∧
          (write (fresh true) 10).buf = (fresh true).buf ++ [10]) :=
  ⟨c6_amended.1 [97, 10, 98] (by decide),
   c6_amended.2 (fresh true) 10 rfl (by decide) (by decide) (by decide)⟩

open WebSocketPrint WebSocketInterface in
/-- C9: `flush()` on an accumulator whose bound connection is no longer
live is a no-op — the state (including the emitted-message log) is
unchanged, so no outbound message is produced and no error is raised;
`flush()` on an empty buffer likewise changes nothing; and a whole command
handled for a dead connection delivers no outbound message at all, so the
buffered bytes are silently discarded when the accumulator is destroyed. -/
theorem c9_flush_noop :
    (∀ s : WebSocketPrint, s.live = false → flush s = s) ∧
    (∀ s : WebSocketPrint, s.buf = [] → flush s = s) ∧
    (∀ (interp : List Nat → List Nat) (data : List Nat),
      handleCommand interp false data = []) := by
  refine ⟨fun s h => flush_of_dead h, fun s h => flush_of_empty h, ?_⟩
  intro interp data
  unfold handleCommand
  cases hn : normalize data with
  | none => rfl
  | some cmd =>
    simp only []
    have hd := writeBlock_dead (interp cmd) (fresh false) rfl
    rw [flush_of_dead hd.2]
    exact hd.1

open WebSocketPrint WebSocketInterface in
/-- C9 witnessed on a dead accumulator holding one byte, a live empty
accumulator, and a dead-client command. -/
theorem c9_flush_noop_witness :
    flush ⟨false, [97], []⟩ = ⟨false, [97], []⟩ ∧
    flush ⟨true, [], []⟩ = ⟨true, [], []⟩ :=
  ⟨c9_flush_noop.1 ⟨false, [97], []⟩ rfl, c9_flush_noop.2.1 ⟨true, [], []⟩ rfl⟩

namespace WebSocketInterface

/-- Characterization of the dropped frames: `normalize` yields `none`
exactly for an empty frame, an oversized frame, or a frame whose
NUL-terminated payload trims to nothing. -/
theorem normalize_eq_none_iff (data : List Nat) :
    normalize data = none ↔
      (data.length = 0 ∨ WS_COMMAND_BUFFER_SIZE < data.length ∨
        trim (cstring data) = []) := by
  unfold normalize
  by_cases h1 : data.length = 0 ∨ WS_COMMAND_BUFFER_SIZE < data.length
  · rw [if_pos h1]
    exact ⟨fun _ => h1.elim Or.inl (fun h => Or.inr (Or.inl h)), fun _ => rfl⟩
  · rw [if_neg h1]
    push_neg at h1
    simp only []
    by_cases h2 : (trim (cstring data)).length = 0
    · rw [if_pos h2]
      have ht : trim (cstring data) = [] := List.length_eq_zero.mp h2
      exact ⟨fun _ => Or.inr (Or.inr ht), fun _ => rfl⟩
    · rw [if_neg h2]
      have ht : trim (cstring data) ≠ [] := fun hh => h2 (by simp [hh])
      constructor
      · intro hnone
        by_cases h3 : (trim (cstring data)).head? = some 60
        · rw [if_pos h3] at hnone; cases hnone
        · rw [if_neg h3] at hnone; cases hnone
      · intro hor
        rcases hor with hc | hc | hc
        · exact absurd hc h1.1
        · exact absurd hc (not_lt.mpr h1.2)
        · exact absurd hc ht

/-- The branch structure of `normalize` on an accepted frame. -/
theorem normalize_eq_some (data : List Nat)
    (h0 : data.length ≠ 0) (hM : data.length ≤ WS_COMMAND_BUFFER_SIZE)
    (hne : trim (cstring data) ≠ []) :
    normalize data =
      some (if (trim (cstring data)).head? = some 60
        then trim (cstring data)
        else 60 :: (trim (cstring data) ++ [62])) := by
  have h1 : ¬(data.length = 0 ∨ WS_COMMAND_BUFFER_SIZE < data.length) := by
    intro hor
    rcases hor with hc | hc
    · exact h0 hc
    · exact absurd hc (not_lt.mpr hM)
  have h2 : ¬ (trim (cstring data)).length = 0 := by
    simpa [List.length_eq_zero] using hne
  unfold normalize
  rw [if_neg h1]
  simp only []
  rw [if_neg h2]
  by_cases h3 : (trim (cstring data)).head? = some 60
  · rw [if_pos h3, if_pos h3]
  · rw [if_neg h3, if_neg h3]


/-- C3 counterexample.  The inbound frame `<a` (bytes `[60, 97]`) passes
the emptiness and length checks, and the normalized command handed to the
interpreter is `<a` itself, which does not end with `>`: already-bracketed
input is passed through without checking the trailing bracket. -/
theorem c3_counterexample :
    normalize [60, 97] = some [60, 97] ∧
    ([60, 97] : List Nat).getLast? ≠ some 62 := by decide

/-- C3 amended: every normalized command handed to the interpreter starts
with `<`; a trimmed payload that already starts with `<` is passed through
to the interpreter completely unchanged; when the trimmed payload does not
start with `<`, the command is exactly `<` + payload + `>`, it therefore
also ends with `>`, and the text inside the brackets has no leading or
trailing whitespace.  For already-bracketed input the trailing `>` and
inner whitespace are not checked. -/
theorem c3_amended (data cmd : List Nat) (h : normalize data = some cmd) :
    cmd.head? = some 60 ∧
    ((trim (cstring data)).head? = some 60 → cmd = trim (cstring data)) ∧
    ((trim (cstring data)).head? ≠ some 60 →
      cmd = 60 :: (trim (cstring data) ++ [62]) ∧
      (∀ a, (trim (cstring data)).head? = some a → isWS a = false) ∧
      (∀ a, (trim (cstring data)).getLast? = some a → isWS a = false)) := by
  unfold normalize at h
  by_cases h1 : data.length = 0 ∨ WS_COMMAND_BUFFER_SIZE < data.length
  · rw [if_pos h1] at h
    cases h
  · rw [if_neg h1] at h
    simp only [] at h
    by_cases h2 : (trim (cstring data)).length = 0
    · rw [if_pos h2] at h
      cases h
    · rw [if_neg h2] at h
      by_cases h3 : (trim (cstring data)).head? = some 60
      · rw [if_pos h3] at h
        cases h
        exact ⟨h3, fun _ => rfl, fun hcon => absurd h3 hcon⟩
      · rw [if_neg h3] at h
        cases h
        refine ⟨rfl, fun hcon => absurd hcon h3, fun _ => ⟨rfl, ?_, ?_⟩⟩
        · intro a ha
          exact head?_trim_not_ws ha
        · intro a ha
          exact getLast?_trim_not_ws ha

/-- C3 amended, witnessed on both branches: the already-bracketed frame
`<a>` (bytes `[60, 97, 62]`) passes through unchanged, and the bare frame
`a` (bytes `[97]`) is wrapped to `<a>`. -/
theorem c3_amended_witness :
    (([60, 97, 62] : List Nat).head? = some 60 ∧
      ((trim (cstring [60, 97, 62])).head? = some 60 →
        [60, 97, 62] = trim (cstring [60, 97, 62])) ∧
      ((trim (cstring [60, 97, 62])).head? ≠ some 60 →
        [60, 97, 62] = 60 :: (trim (cstring [60, 97, 62]) ++ [62]) ∧
        (∀ a, (trim (cstring [60, 97, 62])).head? = some a → isWS a = false) ∧
        (∀ a, (trim (cstring [60, 97, 62])).getLast? = some a →
          isWS a = false))) ∧
    (([60, 97, 62] : List Nat).head? = some 60 ∧
      ((trim (cstring [97])).head? = some 60 →
        [60, 97, 62] = trim (cstring [97])) ∧
      ((trim (cstring [97])).head? ≠ some 60 →
        [60, 97, 62] = 60 :: (trim (cstring [97]) ++ [62]) ∧
        (∀ a, (trim (cstring [97])).head? = some a → isWS a = false) ∧
        (∀ a, (trim (cstring [97])).getLast? = some a → isWS a = false))) :=
  ⟨c3_amended [60, 97, 62] [60, 97, 62] (by decide),
   c3_amended [97] [60, 97, 62] (by decide)⟩

/-- C7: for every non-empty, within-limit payload whose trimmed text is
non-empty, the normalizer passes the trimmed text to the interpreter
unchanged when its first character is `<`, and otherwise passes
`<` + text + `>`. -/
theorem c7_normalize_shape (data : List Nat)
    (h0 : data.length ≠ 0) (hM : data.length ≤ WS_COMMAND_BUFFER_SIZE)
    (hne : trim (cstring data) ≠ []) :
    normalize data =
      some (if (trim (cstring data)).head? = some 60
        then trim (cstring data)
        else 60 :: (trim (cstring data) ++ [62])) :=
  normalize_eq_some data h0 hM hne

/-- C7 witnessed at the already-bracketed frame `<s>` and the bare frame
`s` (byte 115). -/
theorem c7_normalize_shape_witness :
    normalize [60, 115, 62] =
      some (if (trim (cstring [60, 115, 62])).head? = some 60
        then trim (cstring [60, 115, 62])
        else 60 :: (trim (cstring [60, 115, 62]) ++ [62])) ∧
    normalize [115] =
      some (if (trim (cstring [115])).head? = some 60
        then trim (cstring [115])
        else 60 :: (trim (cstring [115]) ++ [62])) :=
  ⟨c7_normalize_shape [60, 115, 62] (by decide) (by decide) (by decide),
   c7_normalize_shape [115] (by decide) (by decide) (by decide)⟩

/-- C8: normalization yields Empty — and the frame is dropped with no
outbound message and no bridge-state change — exactly when the payload is
empty, oversized, or trims (after NUL termination) to the empty string; a
payload of exactly the maximum length that survives trimming is accepted
and processed. -/
theorem c8_drop_policy :
    (∀ data : List Nat, normalize data = none ↔
        (data.length = 0 ∨ WS_COMMAND_BUFFER_SIZE < data.length ∨
          trim (cstring data) = [])) ∧
    (∀ (interp : List Nat → List Nat) (live : Bool) (data : List Nat),
        normalize data = none → handleCommand interp live data = []) ∧
    (∀ (interp : List Nat → List Nat) (s : BridgeState) (cid : Nat)
        (data : List Nat), (onWebSocketEvent interp s (.data cid data)).1 = s) ∧
    (∀ data : List Nat, data.length = WS_COMMAND_BUFFER_SIZE →
        trim (cstring data) ≠ [] → ∃ cmd, normalize data = some cmd) := by
  refine ⟨normalize_eq_none_iff, ?_, ?_, ?_⟩
  · intro interp live data h
    simp [handleCommand, h]
  · intro interp s cid data
    rfl
  · intro data hlen hne
    cases hn : normalize data with
    | some cmd => exact ⟨cmd, rfl⟩
    | none =>
      exfalso
      rcases (normalize_eq_none_iff data).mp hn with hc | hc | hc
      · rw [hlen] at hc
        exact absurd hc (by decide)
      · rw [hlen] at hc
        exact absurd hc (by decide)
      · exact hne hc

set_option maxRecDepth 100000 in
/-- C8 witnessed: the empty frame is dropped producing no message, and a
frame of exactly 128 bytes of `a` is accepted. -/
theorem c8_drop_policy_witness :
    handleCommand (fun _ => []) true [] = [] ∧
    (∃ cmd, normalize (List.replicate 128 97) = some cmd) :=
  ⟨c8_drop_policy.2.1 (fun _ => []) true [] (by decide),
   c8_drop_policy.2.2.2 (List.replicate 128 97) (by decide) (by decide)⟩

end WebSocketInterface

namespace WebSocketInterface

/-- C1: for every sequence of events delivered to the bridge, the client
count stays between 0 and `WS_MAX_CLIENTS` inclusive; moreover a connect
event increments the count exactly when it is below the ceiling, and a
disconnect event decrements it exactly when it is above zero (truncated
subtraction states both cases at once). -/
theorem c1_registry_bounds :
    (∀ (interp : List Nat → List Nat) (evs : List WSEvent),
      0 ≤ (runEvents interp initialState evs).clientCount ∧
      (runEvents interp initialState evs).clientCount ≤ WS_MAX_CLIENTS) ∧
    (∀ (interp : List Nat → List Nat) (s : BridgeState) (id : Nat),
      (onWebSocketEvent interp s (.connect id)).1.clientCount =
        if s.clientCount < WS_MAX_CLIENTS then s.clientCount + 1
        else s.clientCount) ∧
    (∀ (interp : List Nat → List Nat) (s : BridgeState) (id : Nat),
      (onWebSocketEvent interp s (.disconnect id)).1.clientCount =
        s.clientCount - 1) := by
  refine ⟨?_, ?_, ?_⟩
  · intro interp evs
    refine ⟨Nat.zero_le _, ?_⟩
    exact clientCount_le_run interp evs initialState (by simp [initialState])
  · intro interp s id
    by_cases hc : WS_MAX_CLIENTS ≤ s.clientCount
    · simp [onWebSocketEvent, hc, Nat.not_lt.mpr hc]
    · have hlt : s.clientCount < WS_MAX_CLIENTS := Nat.lt_of_not_le hc
      have hmod : (s.clientCount + 1) % 256 = s.clientCount + 1 :=
        Nat.mod_eq_of_lt (by simp [WS_MAX_CLIENTS] at hlt; omega)
      simp [onWebSocketEvent, hc, hlt, hmod]
  · intro interp s id
    simp only [onWebSocketEvent]
    split <;> omega

/-- C2: a connect event arriving while the count equals the ceiling leaves
the whole bridge state unchanged and performs exactly the rejection notice
followed by the forced close; a connect event below the ceiling increments
the count and sends exactly the welcome payload carrying the client id. -/
theorem c2_admission (interp : List Nat → List Nat) (s : BridgeState)
    (id : Nat) :
    (s.clientCount = WS_MAX_CLIENTS →
      (onWebSocketEvent interp s (.connect id)).1 = s ∧
      (onWebSocketEvent interp s (.connect id)).2 =
        [.text maxClientsMsg, .close]) ∧
    (s.clientCount < WS_MAX_CLIENTS →
      (onWebSocketEvent interp s (.connect id)).1.clientCount =
        s.clientCount + 1 ∧
      (onWebSocketEvent interp s (.connect id)).2 = [.text (welcomeMsg id)]) := by
  constructor
  · intro h
    have hc : WS_MAX_CLIENTS ≤ s.clientCount := le_of_eq h.symm
    simp [onWebSocketEvent, hc]
  · intro h
    have hc : ¬ WS_MAX_CLIENTS ≤ s.clientCount := Nat.not_le.mpr h
    have hmod : (s.clientCount + 1) % 256 = s.clientCount + 1 :=
      Nat.mod_eq_of_lt (by simp [WS_MAX_CLIENTS] at h; omega)
    simp [onWebSocketEvent, hc, hmod]

/-- C2 witnessed at a full registry (count 5) rejecting client 6, and at an
empty registry admitting client 1. -/
theorem c2_admission_witness :
    ((onWebSocketEvent (fun _ => []) ⟨5, [1, 2, 3, 4, 5]⟩ (.connect 6)).1 =
        ⟨5, [1, 2, 3, 4, 5]⟩ ∧
      (onWebSocketEvent (fun _ => []) ⟨5, [1, 2, 3, 4, 5]⟩ (.connect 6)).2 =
        [.text maxClientsMsg, .close]) ∧
    ((onWebSocketEvent (fun _ => []) ⟨0, []⟩ (.connect 1)).1.clientCount =
        0 + 1 ∧
      (onWebSocketEvent (fun _ => []) ⟨0, []⟩ (.connect 1)).2 =
        [.text (welcomeMsg 1)]) :=
  ⟨(c2_admission (fun _ => []) ⟨5, [1, 2, 3, 4, 5]⟩ 6).1 rfl,
   (c2_admission (fun _ => []) ⟨0, []⟩ 1).2 (by decide)⟩

/-- C10: the disconnect handler decrements the count whenever it is
positive, never consulting whether the disconnecting client was admitted
(the ghost `connected` list is only updated, never read); consequently on
the sequence "fill to the ceiling, reject a sixth connect, then receive
the disconnect raised by that rejected client's forced close" the count
drops to 4 while five admitted clients are still connected. -/
theorem c10_phantom_decrement :
    (∀ (interp : List Nat → List Nat) (s : BridgeState) (id : Nat),
      (onWebSocketEvent interp s (.disconnect id)).1.clientCount =
        s.clientCount - 1 ∧
      (onWebSocketEvent interp s (.disconnect id)).1.connected =
        s.connected.erase id) ∧
    ((runEvents (fun _ => []) initialState
        [.connect 1, .connect 2, .connect 3, .connect 4, .connect 5,
         .connect 6, .disconnect 6]).clientCount = 4 ∧
      (runEvents (fun _ => []) initialState
        [.connect 1, .connect 2, .connect 3, .connect 4, .connect 5,
         .connect 6, .disconnect 6]).connected = [1, 2, 3, 4, 5] ∧
      (runEvents (fun _ => []) initialState
        [.connect 1, .connect 2, .connect 3, .connect 4, .connect 5,
         .connect 6, .disconnect 6]).clientCount =
        (runEvents (fun _ => []) initialState
          [.connect 1, .connect 2, .connect 3, .connect 4, .connect 5,
           .connect 6, .disconnect 6]).connected.length - 1) := by
  refine ⟨?_, by decide, by decide, by decide⟩
  intro interp s id
  constructor
  · simp only [onWebSocketEvent]
    split <;> omega
  · rfl

/-- C4 counterexample.  A failed SPIFFS mount does affect bridge
operation: `setup` returns at line 68 before the server or websocket is
created, so the bridge stays disabled and `broadcast` with three clients
sends nothing, whereas after a successful mount the bridge is enabled and
the same broadcast goes out. -/
theorem c4_counterexample :
    (setup false true).enabled = false ∧
    broadcastSends (setup false true) 3 = false ∧
    (setup true true).enabled = true ∧
    broadcastSends (setup true true) 3 = true := by decide

/-- C4 amended: a failed SPIFFS mount aborts `setup` before anything is
created — the bridge stays disabled, the server and websocket are never
started, `loop` stops at its guard and `broadcast` never sends — while
after a successful mount the bridge is enabled and serves protocol
traffic regardless of whether `/index.html` exists (a missing index file
is only logged). -/
theorem c4_amended (idx : Bool) (n : Nat) :
    ((setup false idx).enabled = false ∧
      (setup false idx).webServerStarted = false ∧
      (setup false idx).wsCreated = false ∧
      broadcastSends (setup false idx) n = false ∧
      loopActive (setup false idx) = false) ∧
    ((setup true idx).enabled = true ∧
      (setup true idx).webServerStarted = true ∧
      (setup true idx).wsCreated = true ∧
      broadcastSends (setup true idx) (n + 1) = true ∧
      loopActive (setup true idx) = true) := by
  cases idx <;> simp [setup, broadcastSends, loopActive]

end WebSocketInterface
